import Mathlib

/-!
Verification of the session credential manager in `src/py_client/jwt.py`
(class `JWTClient`). The Python class is shallowly embedded: JSON objects
whose values are strings-or-null become association lists
`List (String × Option String)`; the in-memory dataclass fields `access` and
`refresh` together with the credentials file become the record `JWTState`;
each network round-trip is modelled by passing the transport's `Resp`
explicitly to the operation. A raised Python exception is an `Except.error`
carrying the error kind and the object's state at the moment of the raise
(a raise in `JWTClient` never loses the object: the caller can catch and
keep using it, so the state travels with the error).
-/

/-- A parsed JSON object with string-or-null values, as produced by
`json.loads` / `r.json()` on the bodies this client handles. A key mapped
to `none` models a JSON `null` value. -/
abbrev Dict := List (String × Option String)

/-- Key lookup in a JSON object: `some v` when the key is present with
value `v` (itself `Option`al, since the value may be JSON null). -/
def dictFind (d : Dict) (k : String) : Option (Option String) :=
  match d with
  | [] => none
  | (k', v) :: t => if k' == k then some v else dictFind t k

/-- Python's `dict.get(k)`: `None` both when the key is missing and when it
is present with value `null`. -/
def dictGet (d : Dict) (k : String) : Option String :=
  match dictFind d k with
  | some v => v
  | none => none

/-- Python's `k in d` membership test on a dict. -/
def hasKey (d : Dict) (k : String) : Bool :=
  (dictFind d k).isSome

/-- Python truthiness of an optional string: `None` and `""` are falsy,
every other string is truthy. -/
def truthy : Option String → Bool
  | none => false
  | some s => !(s == "")

/-- Python f-string interpolation of an optional string: `f"{x}"` renders
`None` as the literal string "None". -/
def pyFormat : Option String → String
  | none => "None"
  | some s => s

/-- The contents of the transport's reply to one HTTP round-trip:
`status` is `r.status_code`, `text` is `r.text`, and `body` is the result
of `r.json()` — `none` when the body is not parseable JSON (so that a call
to `r.json()` raises). -/
structure Resp where
  status : Nat
  body : Option Dict
  text : String
deriving DecidableEq

/-- The mutable state of a `JWTClient` instance together with the
credentials file at `cred_path`. `file = none`: no file on disk;
`file = some none`: the file exists but `json.loads` fails on it (or yields
`null`), the "tampered" case; `file = some (some d)`: the file parses to
the JSON object `d`. The immutable dataclass fields `header_type`,
`base_endpoint` and `cred_path` are configuration, passed separately where
needed (`cred_path` is always non-None: `__post_init__` dereferences it
unconditionally, so no instance with `cred_path = None` survives
construction). -/
structure JWTState where
  access : Option String
  refresh : Option String
  file : Option (Option Dict)
deriving DecidableEq

/-- The immutable configuration fields of the dataclass. -/
structure JWTConfig where
  header_type : String
  base_endpoint : String
deriving DecidableEq

/-- The observable error kinds of the client. `authenticationError` is the
`Exception(f"Access not granted: {r.text}")` of `perform_auth` (the spec
names it AuthenticationError); `requestError` is the
`Exception(f"Request not complete {r.text}")` of `list`;
`jsonDecodeError` is the error `r.json()` raises on an unparseable body. -/
inductive PyErr where
  | authenticationError (msg : String)
  | requestError (msg : String)
  | jsonDecodeError
deriving DecidableEq

/-- An HTTP request as handed to the `requests` library. -/
structure Request where
  method : String
  url : String
  jsonBody : Dict
  headers : List (String × String)
deriving DecidableEq

/-- `JWTClient.clear_tokens`: sets both tokens to `None` and unlinks the
credentials file when it exists (so the file is absent afterwards in every
case). -/
def clear_tokens (_st : JWTState) : JWTState :=
  ⟨none, none, none⟩

/-- `JWTClient.write_creds`: overwrites the in-memory `access` and
`refresh` fields from the given mapping via `dict.get`, then writes the
full mapping to the file only when both updated fields are truthy. -/
def write_creds (st : JWTState) (data : Dict) : JWTState :=
  let st1 : JWTState := { st with access := dictGet data "access",
                                  refresh := dictGet data "refresh" }
  if truthy st1.access && truthy st1.refresh then
    { st1 with file := some (some data) }
  else
    st1

/-- `JWTClient.get_headers`: `_type = header_type or self.header_type`
(Python `or`, so a falsy argument falls back to the configured scheme);
returns `{}` when the held access token is falsy, else a single
Authorization entry. -/
def get_headers (header_type : String) (st : JWTState)
    (arg : Option String) : List (String × String) :=
  let t := if truthy arg then arg.getD "" else header_type
  if truthy st.access then
    [("Authorization", t ++ " " ++ st.access.getD "")]
  else
    []

/-- The request `JWTClient.verify_token` posts:
`POST {base}/token/verify/` with body `{"token": f"{self.access}"}` and no
headers argument. -/
def verify_request (cfg : JWTConfig) (st : JWTState) : Request :=
  ⟨"POST", cfg.base_endpoint ++ "/token/verify/",
   [("token", some (pyFormat st.access))], []⟩

/-- `JWTClient.verify_token`: `return r.status_code == 200`. Total: no
status makes it raise. -/
def verify_token (_st : JWTState) (resp : Resp) : Bool :=
  resp.status == 200

/-- The request `JWTClient.perform_auth` posts:
`POST {base}/token/` with the username/password JSON body and no auth
header. -/
def auth_request (cfg : JWTConfig) (username password : String) : Request :=
  ⟨"POST", cfg.base_endpoint ++ "/token/",
   [("username", some username), ("password", some password)], []⟩

/-- `JWTClient.perform_auth` after the response arrives: non-200 raises
`Exception(f"Access not granted: {r.text}")` before any state mutation;
200 parses the body (`r.json()`, raising on malformed JSON) and hands it
to `write_creds`. -/
def perform_auth (st : JWTState) (resp : Resp) :
    Except (PyErr × JWTState) JWTState :=
  if resp.status ≠ 200 then
    .error (.authenticationError ("Access not granted: " ++ resp.text), st)
  else
    match resp.body with
    | none => .error (.jsonDecodeError, st)
    | some data => .ok (write_creds st data)

/-- The request `JWTClient.perform_refresh` posts:
`POST {base}/token/refresh/` with body `{"refresh": f"{self.refresh}"}`
and the current auth headers attached. -/
def refresh_request (cfg : JWTConfig) (st : JWTState) : Request :=
  ⟨"POST", cfg.base_endpoint ++ "/token/refresh/",
   [("refresh", some (pyFormat st.refresh))],
   get_headers cfg.header_type st none⟩

/-- `JWTClient.perform_refresh` after the response arrives: non-200 clears
and returns False; 200 parses the body (raising on malformed JSON); a body
without an `access` key clears and returns False; otherwise writes the
pair of the body's `access` value and the currently held refresh token
through `write_creds` and returns True. -/
def perform_refresh (st : JWTState) (resp : Resp) :
    Except (PyErr × JWTState) (JWTState × Bool) :=
  if resp.status ≠ 200 then
    .ok (clear_tokens st, false)
  else
    match resp.body with
    | none => .error (.jsonDecodeError, st)
    | some refresh_data =>
      if hasKey refresh_data "access" = false then
        .ok (clear_tokens st, false)
      else
        let stored_data : Dict :=
          [("access", dictGet refresh_data "access"),
           ("refresh", st.refresh)]
        .ok (write_creds st stored_data, true)

/-- Substring test on character lists: does `sub` occur at the start of
`hay`? -/
def charsLeads : List Char → List Char → Bool
  | _, [] => true
  | [], _ :: _ => false
  | a :: as, b :: bs => a == b && charsLeads as bs

/-- Substring test on character lists: does `sub` occur anywhere in
`hay`? -/
def charsContains (hay sub : List Char) : Bool :=
  match hay with
  | [] => charsLeads [] sub
  | _ :: t => charsLeads hay sub || charsContains t sub

/-- Python's `sub in hay` substring containment on strings. -/
def strContains (hay sub : String) : Bool :=
  charsContains hay.data sub.data

/-- The URL `JWTClient.list` sends its GET to: the given endpoint is
replaced by `f"{base_endpoint}/products/?limit={limit}"` when it is `None`
or when `self.base_endpoint not in str(endpoint)`. -/
def list_endpoint (base : String) (endpoint : Option String)
    (limit : Nat) : String :=
  match endpoint with
  | none => base ++ "/products/?limit=" ++ toString limit
  | some e =>
    if strContains e base then e
    else base ++ "/products/?limit=" ++ toString limit

/-- The request `JWTClient.list` issues: an authenticated GET to
`list_endpoint`. -/
def list_request (cfg : JWTConfig) (st : JWTState)
    (endpoint : Option String) (limit : Nat) : Request :=
  ⟨"GET", list_endpoint cfg.base_endpoint endpoint limit, [],
   get_headers cfg.header_type st none⟩

/-- `JWTClient.list` after the response arrives: non-200 raises
`Exception(f"Request not complete {r.text}")`; otherwise returns
`r.json()` (raising on malformed JSON). No state is mutated. -/
def list_resource (st : JWTState) (resp : Resp) :
    Except (PyErr × JWTState) Dict :=
  if resp.status ≠ 200 then
    .error (.requestError ("Request not complete " ++ resp.text), st)
  else
    match resp.body with
    | none => .error (.jsonDecodeError, st)
    | some d => .ok d

/-- The network calls `__post_init__` can make, in the order it makes
them. -/
inductive Call where
  | verify
  | refresh
  | login
deriving DecidableEq

/-- The scripted replies of the transport, one per endpoint that
`__post_init__` may hit (each is consulted at most once per run). -/
structure Transport where
  verifyResp : Resp
  refreshResp : Resp
  loginResp : Resp
deriving DecidableEq

/-- `JWTClient.__post_init__`, with `a0`/`r0` the dataclass field values
set by the generated `__init__` and `file` the credentials file found on
disk. Returns the outcome (final state, or the propagated exception with
the state at the raise) together with the list of network calls made.
Branches follow the source: no file → login; unparseable file → clear then
login; parseable file → load fields, verify; verify false → refresh;
refresh false → clear then login. -/
def post_init (a0 r0 : Option String) (file : Option (Option Dict))
    (tr : Transport) :
    Except (PyErr × JWTState) JWTState × List Call :=
  let st0 : JWTState := ⟨a0, r0, file⟩
  match file with
  | none => (perform_auth st0 tr.loginResp, [Call.login])
  | some none =>
    (perform_auth (clear_tokens st0) tr.loginResp, [Call.login])
  | some (some data) =>
    let st1 : JWTState := { st0 with access := dictGet data "access",
                                     refresh := dictGet data "refresh" }
    if verify_token st1 tr.verifyResp then
      (.ok st1, [Call.verify])
    else
      match perform_refresh st1 tr.refreshResp with
      | .error e => (.error e, [Call.verify, Call.refresh])
      | .ok (st2, true) => (.ok st2, [Call.verify, Call.refresh])
      | .ok (st2, false) =>
        (perform_auth (clear_tokens st2) tr.loginResp,
         [Call.verify, Call.refresh, Call.login])

/-- The public operations of an already-constructed client, each carrying
the transport reply it consumes. -/
inductive Op where
  | opPersist (d : Dict)
  | opClear
  | opLogin (resp : Resp)
  | opRefresh (resp : Resp)
  | opVerify (resp : Resp)
  | opList (endpoint : Option String) (limit : Nat) (resp : Resp)
deriving DecidableEq

/-- One public operation applied to a client state. `verify_token` and
`list` never assign to `self.access`, `self.refresh` or the file, so they
leave the state unchanged (for `list`, also when it raises: the raise
happens before any mutation and the object stays usable). -/
def step (st : JWTState) : Op → Except (PyErr × JWTState) JWTState
  | .opPersist d => .ok (write_creds st d)
  | .opClear => .ok (clear_tokens st)
  | .opLogin resp => perform_auth st resp
  | .opRefresh resp =>
    match perform_refresh st resp with
    | .error e => .error e
    | .ok (st', _) => .ok st'
  | .opVerify _ => .ok st
  | .opList _ _ _ => .ok st

/-- States reachable through the public surface: a completed
`__post_init__` run from any constructor arguments, followed by any
sequence of completed public operations. -/
inductive Reach : JWTState → Prop where
  | init : ∀ a0 r0 file tr st calls,
      post_init a0 r0 file tr = (.ok st, calls) → Reach st
  | more : ∀ st op st',
      Reach st → step st op = .ok st' → Reach st'

/-- The pairing condition on a credential mapping: when its `refresh`
entry carries a value, its `access` entry carries one too. -/
def dictInv (d : Dict) : Prop :=
  dictGet d "access" = none → dictGet d "refresh" = none

/-- The mappings an operation hands to `write_creds`. -/
def loginDicts (resp : Resp) : List Dict :=
  if resp.status == 200 then
    match resp.body with
    | some b => [b]
    | none => []
  else []

/-- The mapping the refresh flow hands to `write_creds` (built from the
response's `access` value and the held refresh token), when the flow gets
that far. -/
def refreshDicts (st : JWTState) (resp : Resp) : List Dict :=
  if resp.status == 200 then
    match resp.body with
    | some b =>
      if hasKey b "access" then
        [[("access", dictGet b "access"), ("refresh", st.refresh)]]
      else []
    | none => []
  else []

/-- The mappings a public operation hands to `write_creds`. -/
def opDicts (st : JWTState) : Op → List Dict
  | .opPersist d => [d]
  | .opClear => []
  | .opLogin resp => loginDicts resp
  | .opRefresh resp => refreshDicts st resp
  | .opVerify _ => []
  | .opList _ _ _ => []

/-- The credential mappings a `__post_init__` run consumes: the file's
mapping when it parses, plus whatever the login / refresh legs it takes
hand to `write_creds`. -/
def initDicts (_a0 _r0 : Option String) (file : Option (Option Dict))
    (tr : Transport) : List Dict :=
  match file with
  | none => loginDicts tr.loginResp
  | some none => loginDicts tr.loginResp
  | some (some data) =>
    let st1 : JWTState := ⟨dictGet data "access", dictGet data "refresh",
                           some (some data)⟩
    data ::
      (if verify_token st1 tr.verifyResp then []
       else
         refreshDicts st1 tr.refreshResp ++
           (match perform_refresh st1 tr.refreshResp with
            | .ok (_, false) => loginDicts tr.loginResp
            | _ => []))

/-- Reachability as in `Reach`, but where every credential mapping
consumed along the way satisfies `dictInv`. -/
inductive ReachOk : JWTState → Prop where
  | init : ∀ a0 r0 file tr st calls,
      post_init a0 r0 file tr = (.ok st, calls) →
      (∀ d ∈ initDicts a0 r0 file tr, dictInv d) →
      ReachOk st
  | more : ∀ st op st',
      ReachOk st → step st op = .ok st' →
      (∀ d ∈ opDicts st op, dictInv d) →
      ReachOk st'

/-- `write_creds` leaves a state whose tokens come straight from the
mapping, so the paired-absence property transfers from the mapping. -/
theorem write_creds_access (st : JWTState) (d : Dict) :
    (write_creds st d).access = dictGet d "access" := by
  simp only [write_creds]
  split <;> rfl

theorem write_creds_refresh (st : JWTState) (d : Dict) :
    (write_creds st d).refresh = dictGet d "refresh" := by
  simp only [write_creds]
  split <;> rfl

theorem write_creds_file (st : JWTState) (d : Dict) :
    (write_creds st d).file =
      if truthy (dictGet d "access") && truthy (dictGet d "refresh") then
        some (some d)
      else st.file := by
  simp only [write_creds]
  split <;> rfl

theorem write_creds_inv (st : JWTState) (d : Dict) (h : dictInv d) :
    (write_creds st d).access = none → (write_creds st d).refresh = none := by
  rw [write_creds_access, write_creds_refresh]
  exact h

/-- A completed login leaves a state whose tokens come from the response
body. -/
theorem perform_auth_inv (st : JWTState) (resp : Resp) (st' : JWTState)
    (hok : perform_auth st resp = .ok st')
    (hd : ∀ d ∈ loginDicts resp, dictInv d) :
    st'.access = none → st'.refresh = none := by
  by_cases h200 : resp.status = 200
  · cases hbody : resp.body with
    | none => simp [perform_auth, h200, hbody] at hok
    | some data =>
      simp [perform_auth, h200, hbody] at hok
      rw [← hok]
      apply write_creds_inv
      apply hd
      simp [loginDicts, h200, hbody]
  · simp [perform_auth, h200] at hok

/-- A completed refresh leaves a state with paired-absent tokens whenever
the mapping it writes satisfies `dictInv` (the failure branches clear both
tokens). -/
theorem perform_refresh_inv (st : JWTState) (resp : Resp)
    (st' : JWTState) (b : Bool)
    (hok : perform_refresh st resp = .ok (st', b))
    (hd : ∀ d ∈ refreshDicts st resp, dictInv d) :
    st'.access = none → st'.refresh = none := by
  by_cases h200 : resp.status = 200
  · cases hbody : resp.body with
    | none => simp [perform_refresh, h200, hbody] at hok
    | some refresh_data =>
      cases hkey : hasKey refresh_data "access" with
      | false =>
        simp [perform_refresh, h200, hbody, hkey] at hok
        intro _; rw [← hok.1]; rfl
      | true =>
        simp [perform_refresh, h200, hbody, hkey] at hok
        rw [← hok.1]
        apply write_creds_inv
        apply hd
        simp [refreshDicts, h200, hbody, hkey]
  · simp [perform_refresh, h200] at hok
    intro _; rw [← hok.1]; rfl

/-- C1 (amended): along runs whose credential mappings all satisfy
`dictInv`, an absent in-memory access token forces an absent in-memory
refresh token. -/
theorem reachOk_paired_absence (st : JWTState) (h : ReachOk st) :
    st.access = none → st.refresh = none := by
  induction h with
  | init a0 r0 file tr st calls hpost hd =>
    cases file with
    | none =>
      simp only [post_init, Prod.mk.injEq] at hpost
      exact perform_auth_inv _ _ _ hpost.1 (by simpa [initDicts] using hd)
    | some inner =>
      cases inner with
      | none =>
        simp only [post_init, Prod.mk.injEq] at hpost
        exact perform_auth_inv _ _ _ hpost.1 (by simpa [initDicts] using hd)
      | some data =>
        simp only [post_init] at hpost
        split at hpost
        · rename_i hver
          simp only [Prod.mk.injEq, Except.ok.injEq] at hpost
          rw [← hpost.1]
          intro hacc
          have hdata : dictInv data := hd data (by simp [initDicts])
          exact hdata hacc
        · rename_i hver
          split at hpost
          · simp at hpost
          · rename_i st2 hrf
            simp only [Prod.mk.injEq, Except.ok.injEq] at hpost
            rw [← hpost.1]
            refine perform_refresh_inv _ _ _ _ hrf ?_
            intro d hdmem
            apply hd
            simp only [initDicts, verify_token] at hver ⊢
            rw [if_neg (by simpa [verify_token] using hver)]
            exact List.mem_cons_of_mem _ (List.mem_append_left _ hdmem)
          · rename_i st2 hrf
            simp only [Prod.mk.injEq] at hpost
            refine perform_auth_inv _ _ _ hpost.1 ?_
            intro d hdmem
            apply hd
            simp only [initDicts]
            rw [if_neg (by simpa [verify_token] using hver), hrf]
            exact List.mem_cons_of_mem _ (List.mem_append_right _ hdmem)
  | more st op st' hr hstep hd ih =>
    cases op with
    | opPersist d =>
      simp only [step, Except.ok.injEq] at hstep
      rw [← hstep]
      exact write_creds_inv _ _ (hd d (by simp [opDicts]))
    | opClear =>
      simp only [step, Except.ok.injEq] at hstep
      rw [← hstep]
      intro _; rfl
    | opLogin resp =>
      simp only [step] at hstep
      exact perform_auth_inv _ _ _ hstep (by simpa [opDicts] using hd)
    | opRefresh resp =>
      simp only [step] at hstep
      split at hstep
      · simp at hstep
      · rename_i st2 b hrf
        simp only [Except.ok.injEq] at hstep
        rw [← hstep]
        exact perform_refresh_inv _ _ _ _ hrf (by simpa [opDicts] using hd)
    | opVerify resp =>
      simp only [step, Except.ok.injEq] at hstep
      rw [← hstep]; exact ih
    | opList e l resp =>
      simp only [step, Except.ok.injEq] at hstep
      rw [← hstep]; exact ih

/-- The credentials-file mapping used by the C1 counterexample run. -/
def cexFileDict : Dict := [("access", some "a"), ("refresh", some "r1")]

/-- Transport script for the C1 counterexample: verify answers 200 at
init, then a later refresh call answers 200 with body
`{"access": null}`. -/
def cexTransport : Transport := ⟨⟨200, none, ""⟩, ⟨0, none, ""⟩, ⟨0, none, ""⟩⟩

/-- The state the C1 counterexample run ends in: access gone, refresh
still held. -/
def cexBadState : JWTState := ⟨none, some "r1", some (some cexFileDict)⟩

/-- C1, as stated, is false: a state with an absent access token but a
present refresh token is reachable through the public operations alone —
initialize from a good file (verify answers 200), then run the refresh
flow against a 200 reply whose body is `{"access": null}`; the flow
reports success and leaves `access = None` while `refresh` keeps "r1". -/
theorem reach_paired_absence_cex :
    Reach cexBadState ∧ cexBadState.access = none ∧
      cexBadState.refresh = some "r1" :=
  ⟨Reach.more ⟨some "a", some "r1", some (some cexFileDict)⟩
      (Op.opRefresh ⟨200, some [("access", none)], ""⟩) cexBadState
      (Reach.init none none (some (some cexFileDict)) cexTransport
        ⟨some "a", some "r1", some (some cexFileDict)⟩ [Call.verify] rfl)
      rfl,
   rfl, rfl⟩

/-- Witness for the amended C1: the hypotheses are satisfiable — a client
that logs in against a 200 reply with an empty JSON body reaches the
all-absent state, and the theorem applies to it. -/
theorem reachOk_paired_absence_witness :
    ReachOk ⟨none, none, none⟩ ∧
      (⟨none, none, none⟩ : JWTState).refresh = none := by
  have h : ReachOk ⟨none, none, none⟩ :=
    ReachOk.init none none none ⟨⟨0, none, ""⟩, ⟨0, none, ""⟩, ⟨200, some [], ""⟩⟩
      ⟨none, none, none⟩ [Call.login] rfl
      (by intro d hd; simp [initDicts, loginDicts] at hd; subst hd
          intro _; rfl)
  exact ⟨h, reachOk_paired_absence ⟨none, none, none⟩ h rfl⟩

/-- A `dict.get` that yields a value implies the key is present. -/
theorem dictGet_isSome_hasKey (d : Dict) (k : String) (a : String)
    (h : dictGet d k = some a) : hasKey d k = true := by
  unfold dictGet at h
  unfold hasKey
  cases hf : dictFind d k with
  | none => rw [hf] at h; simp at h
  | some v => simp [hf]

/-- The refresh flow on a 200 reply whose body has an `access` key: writes
the pair of the body's access value and the held refresh token, returns
True. -/
theorem perform_refresh_keyed (st : JWTState) (resp : Resp) (b : Dict)
    (h200 : resp.status = 200) (hbody : resp.body = some b)
    (hkey : hasKey b "access" = true) :
    perform_refresh st resp =
      .ok (write_creds st
        [("access", dictGet b "access"), ("refresh", st.refresh)], true) := by
  simp [perform_refresh, h200, hbody, hkey]

/-- The refresh flow on a failing reply (non-200, or 200 whose parsed body
has no `access` key): clears everything and returns False. -/
theorem perform_refresh_fails_clears (st : JWTState) (resp : Resp)
    (h : resp.status ≠ 200 ∨
      (resp.status = 200 ∧
        ∃ b, resp.body = some b ∧ hasKey b "access" = false)) :
    perform_refresh st resp = .ok (⟨none, none, none⟩, false) := by
  rcases h with h | ⟨h200, b, hbody, hkey⟩
  · simp [perform_refresh, h, clear_tokens]
  · simp [perform_refresh, h200, hbody, hkey, clear_tokens]

/-- C2 (amended): from a state holding a non-empty refresh token, a 200
refresh reply whose body carries a non-empty `access` string leaves the
in-memory refresh token unchanged, sets the in-memory access token to the
new value, rewrites the file to exactly that pair, and returns true. -/
theorem perform_refresh_success (st : JWTState) (resp : Resp) (b : Dict)
    (a : String)
    (hrt : truthy st.refresh = true)
    (h200 : resp.status = 200)
    (hbody : resp.body = some b)
    (hacc : dictGet b "access" = some a)
    (hne : a ≠ "") :
    perform_refresh st resp =
      .ok (⟨some a, st.refresh,
            some (some [("access", some a), ("refresh", st.refresh)])⟩,
           true) := by
  have hkey := dictGet_isSome_hasKey b "access" a hacc
  rw [perform_refresh_keyed st resp b h200 hbody hkey, hacc]
  have hacc' : dictGet [("access", some a), ("refresh", st.refresh)] "access"
      = some a := by
    simp [dictGet, dictFind]
  have href' : dictGet [("access", some a), ("refresh", st.refresh)] "refresh"
      = st.refresh := by
    simp [dictGet, dictFind]
  simp only [write_creds, hacc', href']
  rw [if_pos]
  rw [hrt, Bool.and_true]
  simp [truthy, hne]

/-- C2, as stated, is false: a 200 reply whose body contains the `access`
field with value `null` makes the flow report success while skipping the
file write, so the file keeps a stale refresh token ("r0") different from
the one held before the call ("r1"). -/
theorem perform_refresh_success_cex :
    (⟨some "a", some "r1",
       some (some [("access", some "x"), ("refresh", some "r0")])⟩ :
      JWTState).refresh = some "r1" ∧
    hasKey [("access", (none : Option String))] "access" = true ∧
    perform_refresh
      ⟨some "a", some "r1",
       some (some [("access", some "x"), ("refresh", some "r0")])⟩
      ⟨200, some [("access", none)], ""⟩ =
      .ok (⟨none, some "r1",
            some (some [("access", some "x"), ("refresh", some "r0")])⟩,
           true) ∧
    dictGet [("access", some "x"), ("refresh", some "r0")] "refresh" =
      some "r0" ∧
    (some "r0" : Option String) ≠ some "r1" := by
  refine ⟨rfl, rfl, rfl, rfl, by decide⟩

/-- Witness for the amended C2 at a concrete state and reply. -/
theorem perform_refresh_success_witness :
    perform_refresh ⟨some "a", some "r1", none⟩
        ⟨200, some [("access", some "new")], ""⟩ =
      .ok (⟨some "new", some "r1",
            some (some [("access", some "new"), ("refresh", some "r1")])⟩,
           true) :=
  perform_refresh_success ⟨some "a", some "r1", none⟩
    ⟨200, some [("access", some "new")], ""⟩ [("access", some "new")] "new"
    rfl rfl rfl rfl (by decide)

/-- C3: for every transport reply, `verify_token` is true exactly on
status 200 and false on every other status; being a total boolean
function of the reply, it raises nothing. -/
theorem verify_token_iff_200 (st : JWTState) (resp : Resp) :
    (verify_token st resp = true ↔ resp.status = 200) ∧
    (verify_token st resp = false ↔ resp.status ≠ 200) := by
  constructor
  · simp [verify_token]
  · simp [verify_token]

/-- C4: a failing refresh reply (non-200, or 200 whose body lacks the
`access` key) makes `perform_refresh` set both tokens to absent, remove
the file, and return False. -/
theorem perform_refresh_failure (st : JWTState) (resp : Resp)
    (h : resp.status ≠ 200 ∨
      (resp.status = 200 ∧
        ∃ b, resp.body = some b ∧ hasKey b "access" = false)) :
    perform_refresh st resp = .ok (⟨none, none, none⟩, false) :=
  perform_refresh_fails_clears st resp h

/-- Witness for C4 at a concrete state and a 401 reply. -/
theorem perform_refresh_failure_witness :
    perform_refresh ⟨some "a", some "r", some (some [("access", some "a")])⟩
        ⟨401, none, "denied"⟩ =
      .ok (⟨none, none, none⟩, false) :=
  perform_refresh_failure ⟨some "a", some "r", some (some [("access", some "a")])⟩
    ⟨401, none, "denied"⟩ (Or.inl (by decide))

/-- C5: `write_creds` rewrites the file to the full mapping exactly when
both updated fields are truthy, and otherwise leaves the file contents
untouched. -/
theorem write_creds_persists_only_full (st : JWTState) (d : Dict) :
    (write_creds st d).file =
      if truthy (dictGet d "access") && truthy (dictGet d "refresh") then
        some (some d)
      else st.file :=
  write_creds_file st d

/-- C6, as stated, is false: an explicitly given empty scheme argument is
not used — Python's `or` discards the falsy argument and falls back to the
configured scheme. -/
theorem get_headers_scheme_cex :
    get_headers "Bearer" ⟨some "t", none, none⟩ (some "") =
      [("Authorization", "Bearer t")] ∧
    get_headers "Bearer" ⟨some "t", none, none⟩ (some "") ≠
      [("Authorization", " t")] := by
  refine ⟨rfl, by decide⟩

/-- C6 (amended): with a falsy access token the header mapping is empty,
whatever the scheme argument; with a non-empty token, both no scheme
argument and an empty scheme argument yield the configured scheme; a
non-empty scheme argument is used in place of the configured one. -/
theorem get_headers_spec :
    (∀ ht st, truthy st.access = false → get_headers ht st none = []) ∧
    (∀ ht st s, truthy st.access = false → get_headers ht st (some s) = []) ∧
    (∀ ht st t, st.access = some t → t ≠ "" →
      get_headers ht st none = [("Authorization", ht ++ " " ++ t)]) ∧
    (∀ ht st t, st.access = some t → t ≠ "" →
      get_headers ht st (some "") = [("Authorization", ht ++ " " ++ t)]) ∧
    (∀ ht st t s, st.access = some t → t ≠ "" → s ≠ "" →
      get_headers ht st (some s) = [("Authorization", s ++ " " ++ t)]) := by
  refine ⟨?_, ?_, ?_, ?_, ?_⟩
  · intro ht st h
    simp [get_headers, h]
  · intro ht st s h
    simp [get_headers, h]
  · intro ht st t hacc ht0
    simp [get_headers, hacc, truthy, ht0]
  · intro ht st t hacc ht0
    simp [get_headers, hacc, truthy, ht0]
  · intro ht st t s hacc ht0 hs0
    simp [get_headers, hacc, truthy, ht0, hs0]

/-- Witness for the amended C6 at concrete states and schemes, covering
the empty-scheme-argument case as well. -/
theorem get_headers_spec_witness :
    get_headers "Bearer" ⟨none, none, none⟩ none = [] ∧
    get_headers "Bearer" ⟨some "tok", none, none⟩ none =
      [("Authorization", "Bearer" ++ " " ++ "tok")] ∧
    get_headers "Bearer" ⟨some "tok", none, none⟩ (some "") =
      [("Authorization", "Bearer" ++ " " ++ "tok")] ∧
    get_headers "Bearer" ⟨some "tok", none, none⟩ (some "JWT") =
      [("Authorization", "JWT" ++ " " ++ "tok")] :=
  ⟨get_headers_spec.1 "Bearer" ⟨none, none, none⟩ (by decide),
   get_headers_spec.2.2.1 "Bearer" ⟨some "tok", none, none⟩ "tok" rfl
     (by decide),
   get_headers_spec.2.2.2.1 "Bearer" ⟨some "tok", none, none⟩ "tok" rfl
     (by decide),
   get_headers_spec.2.2.2.2 "Bearer" ⟨some "tok", none, none⟩ "tok" "JWT" rfl
     (by decide) (by decide)⟩

/-- The refresh leg fails: non-200, or 200 with a parsed body that has no
`access` key. -/
def refreshFails (resp : Resp) : Prop :=
  resp.status ≠ 200 ∨
    (resp.status = 200 ∧
      ∃ b, resp.body = some b ∧ hasKey b "access" = false)

/-- C7: when the file parses but verify answers non-200 and the refresh
leg fails, `__post_init__` clears both tokens, removes the file, and runs
login exactly once (the whole run equals a login from the cleared state,
after the `[verify, refresh]` calls); and no run whose verify or refresh
leg succeeds makes a login call. -/
theorem post_init_fallback_login :
    (∀ a0 r0 d tr, tr.verifyResp.status ≠ 200 →
      refreshFails tr.refreshResp →
      post_init a0 r0 (some (some d)) tr =
        (perform_auth ⟨none, none, none⟩ tr.loginResp,
         [Call.verify, Call.refresh, Call.login])) ∧
    (∀ a0 r0 d tr, tr.verifyResp.status = 200 →
      Call.login ∉ (post_init a0 r0 (some (some d)) tr).2) ∧
    (∀ a0 r0 d tr b, tr.refreshResp.status = 200 →
      tr.refreshResp.body = some b → hasKey b "access" = true →
      Call.login ∉ (post_init a0 r0 (some (some d)) tr).2) := by
  refine ⟨?_, ?_, ?_⟩
  · intro a0 r0 d tr hver hrf
    have hclears := perform_refresh_fails_clears
      ⟨dictGet d "access", dictGet d "refresh", some (some d)⟩
      tr.refreshResp hrf
    simp only [post_init]
    rw [if_neg (by simp [verify_token, hver]), hclears]
    rfl
  · intro a0 r0 d tr hver
    simp only [post_init]
    rw [if_pos (by simp [verify_token, hver])]
    simp
  · intro a0 r0 d tr b h200 hbody hkey
    by_cases hver : tr.verifyResp.status = 200
    · simp only [post_init]
      rw [if_pos (by simp [verify_token, hver])]
      simp
    · have hkeyed := perform_refresh_keyed
        ⟨dictGet d "access", dictGet d "refresh", some (some d)⟩
        tr.refreshResp b h200 hbody hkey
      simp only [post_init]
      rw [if_neg (by simp [verify_token, hver]), hkeyed]
      simp

/-- Witness for C7 at a concrete file, transport, and run. -/
theorem post_init_fallback_login_witness :
    post_init none none
        (some (some [("access", some "bad"), ("refresh", some "r1")]))
        ⟨⟨401, none, ""⟩, ⟨401, none, ""⟩, ⟨403, none, "no"⟩⟩ =
      (.error (.authenticationError ("Access not granted: " ++ "no"),
               ⟨none, none, none⟩),
       [Call.verify, Call.refresh, Call.login]) ∧
    Call.login ∉ (post_init none none
        (some (some [("access", some "good"), ("refresh", some "r1")]))
        ⟨⟨200, none, ""⟩, ⟨401, none, ""⟩, ⟨403, none, "no"⟩⟩).2 ∧
    Call.login ∉ (post_init none none
        (some (some [("access", some "bad"), ("refresh", some "r1")]))
        ⟨⟨401, none, ""⟩, ⟨200, some [("access", some "new")], ""⟩,
         ⟨403, none, "no"⟩⟩).2 := by
  refine ⟨?_, ?_, ?_⟩
  · rw [post_init_fallback_login.1 none none
      [("access", some "bad"), ("refresh", some "r1")]
      ⟨⟨401, none, ""⟩, ⟨401, none, ""⟩, ⟨403, none, "no"⟩⟩
      (by decide) (Or.inl (by decide))]
    rfl
  · exact post_init_fallback_login.2.1 none none
      [("access", some "good"), ("refresh", some "r1")]
      ⟨⟨200, none, ""⟩, ⟨401, none, ""⟩, ⟨403, none, "no"⟩⟩ rfl
  · exact post_init_fallback_login.2.2 none none
      [("access", some "bad"), ("refresh", some "r1")]
      ⟨⟨401, none, ""⟩, ⟨200, some [("access", some "new")], ""⟩,
       ⟨403, none, "no"⟩⟩ [("access", some "new")] rfl rfl rfl

/-- C8: a non-200 login reply raises the authentication error carrying the
response text, with the state (file included) untouched; a 200 reply hands
its parsed body to `write_creds`, which loads the body's `access` and
`refresh` fields into memory. -/
theorem perform_auth_spec :
    (∀ st resp, resp.status ≠ 200 →
      perform_auth st resp =
        .error (.authenticationError ("Access not granted: " ++ resp.text),
                st)) ∧
    (∀ st resp b, resp.status = 200 → resp.body = some b →
      perform_auth st resp = .ok (write_creds st b) ∧
      (write_creds st b).access = dictGet b "access" ∧
      (write_creds st b).refresh = dictGet b "refresh") := by
  refine ⟨?_, ?_⟩
  · intro st resp h
    simp [perform_auth, h]
  · intro st resp b h200 hbody
    exact ⟨by simp [perform_auth, h200, hbody],
           write_creds_access st b, write_creds_refresh st b⟩

/-- Witness for C8 at concrete replies. -/
theorem perform_auth_spec_witness :
    perform_auth ⟨none, none, some (some [("access", some "x")])⟩
        ⟨401, none, "denied"⟩ =
      .error (.authenticationError ("Access not granted: " ++ "denied"),
              ⟨none, none, some (some [("access", some "x")])⟩) ∧
    perform_auth ⟨none, none, none⟩
        ⟨200, some [("access", some "a"), ("refresh", some "r")], ""⟩ =
      .ok (write_creds ⟨none, none, none⟩
        [("access", some "a"), ("refresh", some "r")]) :=
  ⟨perform_auth_spec.1 ⟨none, none, some (some [("access", some "x")])⟩
     ⟨401, none, "denied"⟩ (by decide),
   (perform_auth_spec.2 ⟨none, none, none⟩
     ⟨200, some [("access", some "a"), ("refresh", some "r")], ""⟩
     [("access", some "a"), ("refresh", some "r")] rfl rfl).1⟩

/-- C9: the GET of `list` goes to the given endpoint exactly when one is
given and the base URL occurs in it; otherwise it goes to the default
products URL built from the base and the limit. -/
theorem list_request_url_spec :
    (∀ cfg st e limit, strContains e cfg.base_endpoint = true →
      (list_request cfg st (some e) limit).url = e) ∧
    (∀ cfg st e limit, strContains e cfg.base_endpoint = false →
      (list_request cfg st (some e) limit).url =
        cfg.base_endpoint ++ "/products/?limit=" ++ toString limit) ∧
    (∀ cfg st limit, (list_request cfg st none limit).url =
      cfg.base_endpoint ++ "/products/?limit=" ++ toString limit) := by
  refine ⟨?_, ?_, ?_⟩
  · intro cfg st e limit h
    simp [list_request, list_endpoint, h]
  · intro cfg st e limit h
    simp [list_request, list_endpoint, h]
  · intro cfg st limit
    simp [list_request, list_endpoint]

/-- Witness for C9 at a concrete base, endpoint, and limit. -/
theorem list_request_url_spec_witness :
    (list_request ⟨"Bearer", "http://b/api"⟩ ⟨none, none, none⟩
        (some "http://b/api/x?page=2") 3).url = "http://b/api/x?page=2" ∧
    (list_request ⟨"Bearer", "http://b/api"⟩ ⟨none, none, none⟩
        (some "http://other/x") 3).url =
      "http://b/api" ++ "/products/?limit=" ++ toString 3 :=
  ⟨list_request_url_spec.1 ⟨"Bearer", "http://b/api"⟩ ⟨none, none, none⟩
     "http://b/api/x?page=2" 3 (by decide),
   list_request_url_spec.2.1 ⟨"Bearer", "http://b/api"⟩ ⟨none, none, none⟩
     "http://other/x" 3 (by decide)⟩

/-- C10: `write_creds` always overwrites the in-memory tokens from the
mapping's `access` and `refresh` values, and when either updated field is
falsy the file keeps its previous contents — so a mapping can clear an
in-memory token while the file keeps the last-written pair. -/
theorem write_creds_overwrites_memory (st : JWTState) (d : Dict) :
    (write_creds st d).access = dictGet d "access" ∧
    (write_creds st d).refresh = dictGet d "refresh" ∧
    ((truthy (dictGet d "access") && truthy (dictGet d "refresh")) = false →
      (write_creds st d).file = st.file) := by
  refine ⟨write_creds_access st d, write_creds_refresh st d, ?_⟩
  intro h
  rw [write_creds_file, h]
  rfl

/-- Witness for C10: the mapping `{"refresh": "r2"}` clears the in-memory
access token, overwrites the in-memory refresh token, and leaves the
previously written file pair intact. -/
theorem write_creds_overwrites_memory_witness :
    (write_creds
      ⟨some "a", some "r", some (some [("access", some "a"), ("refresh", some "r")])⟩
      [("refresh", some "r2")]).access = none ∧
    (write_creds
      ⟨some "a", some "r", some (some [("access", some "a"), ("refresh", some "r")])⟩
      [("refresh", some "r2")]).refresh = some "r2" ∧
    (write_creds
      ⟨some "a", some "r", some (some [("access", some "a"), ("refresh", some "r")])⟩
      [("refresh", some "r2")]).file =
      some (some [("access", some "a"), ("refresh", some "r")]) := by
  obtain ⟨h1, h2, h3⟩ := write_creds_overwrites_memory
    ⟨some "a", some "r", some (some [("access", some "a"), ("refresh", some "r")])⟩
    [("refresh", some "r2")]
  exact ⟨h1, h2, h3 (by decide)⟩
